import Mathlib

/-!
Shallow embedding of the keyword-research RAG pipeline implemented in
`Kewords RAG/keyword_rag.py`.

Conventions of the embedding:
* Python floats are modelled as exact rationals (`ℚ`); the integer-micros to
  currency division is exact in both models.
* The sentence-transformer embedding model (`model.encode` followed by
  `faiss.normalize_L2`) is an external deterministic text-to-vector function;
  it is a parameter `embed : String → List ℚ` of every store operation.
* The FAISS `IndexFlatIP` is modelled by the list of vectors it contains.
  Its `search` returns, for a query vector and a requested `k`, the stored
  vectors' inner-product scores sorted in non-increasing order, truncated to
  `k`, and padded up to `k` entries with the pair `(faissLowest, -1)` — FAISS
  pads missing neighbours with label `-1` and the lowest float value.
* Python list subscription `lst[i]` with a possibly negative `i` is `pyGet`.
* The two on-disk artifacts written by `save` / read by `load` are modelled
  by `DiskState`, a pair of path-indexed partial maps.
* Exceptions are modelled with `Except`; the upstream Google Ads call and the
  OpenAI chat-completion call are `Except`-valued function parameters.
-/

/-- The `KeywordData` dataclass: one keyword plus its advertising metrics. -/
structure KeywordData where
  keyword : String
  search_volume : Nat
  competition : String
  cpc_high : ℚ
  cpc_low : ℚ
  ad_impression_share : ℚ
  top_of_page_cpc_high : ℚ
  top_of_page_cpc_low : ℚ
  currency_code : String
  timestamp : Nat
  deriving DecidableEq, Repr

/-- One idea row of the Google Ads `GenerateKeywordIdeas` response, with the
fields `get_keyword_ideas` reads: `idea.text` and
`idea.keyword_idea_metrics.{avg_monthly_searches, competition,
high_top_of_page_bid_micros, low_top_of_page_bid_micros}` (the micros fields
are protobuf integers, 0 when unset; `avg_monthly_searches` may be unset). -/
structure KeywordIdea where
  text : String
  avg_monthly_searches : Option Nat
  competition_name : String
  high_top_of_page_bid_micros : Nat
  low_top_of_page_bid_micros : Nat
  deriving DecidableEq, Repr

/-- The `KeywordData(...)` construction inside `get_keyword_ideas`
(keyword_rag.py lines 92-103).  Python truthiness: a bid-micros value of `0`
takes the `else 0` branch; `avg_monthly_searches or 0` defaults a missing
count to `0`. -/
def mkKeywordData (idea : KeywordIdea) (now : Nat) : KeywordData :=
  { keyword := idea.text
    search_volume := idea.avg_monthly_searches.getD 0
    competition := idea.competition_name
    cpc_high :=
      if idea.high_top_of_page_bid_micros ≠ 0 then
        (idea.high_top_of_page_bid_micros : ℚ) / 1000000
      else 0
    cpc_low :=
      if idea.low_top_of_page_bid_micros ≠ 0 then
        (idea.low_top_of_page_bid_micros : ℚ) / 1000000
      else 0
    ad_impression_share := 0
    top_of_page_cpc_high :=
      if idea.high_top_of_page_bid_micros ≠ 0 then
        (idea.high_top_of_page_bid_micros : ℚ) / 1000000
      else 0
    top_of_page_cpc_low :=
      if idea.low_top_of_page_bid_micros ≠ 0 then
        (idea.low_top_of_page_bid_micros : ℚ) / 1000000
      else 0
    currency_code := "USD"
    timestamp := now }

/-- Error taxonomy of the spec (section 7): the `ValueError` raised by
`get_keyword_ideas` on a missing customer id is the spec's
`ConfigurationError`; a re-raised `GoogleAdsException` is the spec's
`FetchError`. -/
inductive KwError where
  | configurationError (msg : String)
  | fetchError (msg : String)
  deriving DecidableEq, Repr

/-- State of `GoogleAdsKeywordExtractor`: `__init__` sets
`self.customer_id = None`. -/
structure GoogleAdsKeywordExtractor where
  customer_id : Option String
  deriving DecidableEq, Repr

/-- A freshly constructed extractor, before any `set_customer_id` call. -/
def freshExtractor : GoogleAdsKeywordExtractor := { customer_id := none }

/-- `set_customer_id`: strips the `-` separators and stores the id. -/
def GoogleAdsKeywordExtractor.set_customer_id
    (ex : GoogleAdsKeywordExtractor) (customer_id : String) :
    GoogleAdsKeywordExtractor :=
  { ex with customer_id := some (customer_id.replace "-" "") }

/-- The request object built by `get_keyword_ideas` (lines 73-84). -/
structure GenerateKeywordIdeasRequest where
  customer_id : String
  language : String
  geo_target_constants : List String
  keyword_seed : List String
  keyword_plan_network : String
  deriving DecidableEq, Repr

/-- `get_keyword_ideas` (keyword_rag.py lines 55-110).  The upstream service
call `keyword_plan_idea_service.generate_keyword_ideas` is the parameter
`api`; the returned `Nat` counts how many upstream calls were made.  The
guard `if not self.customer_id` fires on `None` and on the empty string. -/
def GoogleAdsKeywordExtractor.get_keyword_ideas
    (ex : GoogleAdsKeywordExtractor)
    (api : GenerateKeywordIdeasRequest → Except String (List KeywordIdea))
    (keywords : List String) (location_ids : Option (List String))
    (language_id : String) (now : Nat) :
    Except KwError (List KeywordData) × Nat :=
  match ex.customer_id with
  | none =>
    (Except.error (KwError.configurationError
      "Customer ID must be set before making API calls"), 0)
  | some cid =>
    if cid = "" then
      (Except.error (KwError.configurationError
        "Customer ID must be set before making API calls"), 0)
    else
      let req : GenerateKeywordIdeasRequest :=
        { customer_id := cid
          language := "languageConstants/" ++ language_id
          geo_target_constants :=
            (location_ids.getD []).map (fun loc => "geoTargetConstants/" ++ loc)
          keyword_seed := keywords
          keyword_plan_network := "GOOGLE_SEARCH" }
      match api req with
      | Except.error e => (Except.error (KwError.fetchError e), 1)
      | Except.ok ideas => (Except.ok (ideas.map (fun i => mkKeywordData i now)), 1)

/-- Left-pad a digit string with zeros to width `w`. -/
def padZeros (s : String) (w : Nat) : String :=
  String.mk (List.replicate (w - s.length) '0') ++ s

/-- Round a rational to the nearest integer, ties to even (the rounding used
by Python float formatting). -/
def roundHalfEven (q : ℚ) : Int :=
  let f := ⌊q⌋
  let r := q - (f : ℚ)
  if r < 1/2 then f
  else if 1/2 < r then f + 1
  else if f % 2 = 0 then f else f + 1

/-- Model of the Python fixed-point format `.2f` / `.3f` applied to a
rational value. -/
def formatFixed (prec : Nat) (q : ℚ) : String :=
  let n := roundHalfEven (q * (10 : ℚ) ^ prec)
  let sign := if n < 0 then "-" else ""
  let m := n.natAbs
  sign ++ toString (m / 10 ^ prec) ++
    (if prec = 0 then "" else "." ++ padZeros (toString (m % 10 ^ prec)) prec)

/-- Split a reversed digit list into groups of three. -/
def chunk3 : List Char → List (List Char)
  | [] => []
  | [a] => [[a]]
  | [a, b] => [[a, b]]
  | a :: b :: c :: rest => [a, b, c] :: chunk3 rest

/-- Model of the Python thousands-separator format specifier applied to a
non-negative integer. -/
def commaFormat (n : Nat) : String :=
  String.mk ((List.intersperse [','] (chunk3 (toString n).data.reverse)).flatten.reverse)

/-- The canonical descriptive text embedded for one record
(keyword_rag.py line 132). -/
def keywordText (kd : KeywordData) : String :=
  "Keyword: " ++ kd.keyword ++ " | Search Volume: " ++ toString kd.search_volume ++
    " | Competition: " ++ kd.competition ++ " | CPC: $" ++
    formatFixed 2 kd.cpc_low ++ "-$" ++ formatFixed 2 kd.cpc_high

/-- State of `KeywordVectorStore`: the FAISS index (`None` until the first
add or load; otherwise the list of vectors it contains), the parallel record
list and the mirror list of embeddings. -/
structure KeywordVectorStore where
  index : Option (List (List ℚ))
  keyword_data : List KeywordData
  embeddings : List (List ℚ)
  deriving DecidableEq, Repr

/-- A freshly constructed `KeywordVectorStore()`. -/
def emptyStore : KeywordVectorStore :=
  { index := none, keyword_data := [], embeddings := [] }

/-- The vectors held by the FAISS index (empty when the index is `None`). -/
def storedVectors (st : KeywordVectorStore) : List (List ℚ) :=
  st.index.getD []

/-- `add_keywords` (keyword_rag.py lines 127-151): build the descriptive
texts, embed them, initialize the index on first use, add the vectors to the
index and append the records and embeddings. -/
def KeywordVectorStore.add_keywords (st : KeywordVectorStore)
    (embed : String → List ℚ) (keyword_data_list : List KeywordData) :
    KeywordVectorStore :=
  let texts := keyword_data_list.map keywordText
  let embs := texts.map embed
  { index := some (st.index.getD [] ++ embs)
    keyword_data := st.keyword_data ++ keyword_data_list
    embeddings := st.embeddings ++ embs }

/-- Inner product of two vectors. -/
def dot (u v : List ℚ) : ℚ :=
  (List.zipWith (· * ·) u v).sum

/-- The score FAISS reports for a padded (missing) neighbour slot: the lowest
single-precision float value, modelled as `-(2^128)` written as a numeral
(a lower bound of every float inner product). -/
def faissLowest : ℚ := -340282366920938463463374607431768211456

/-- Order in which FAISS reports hits: non-increasing score. -/
def scoreRel (a b : ℚ × Int) : Prop := b.1 ≤ a.1

instance : DecidableRel scoreRel :=
  fun a b => inferInstanceAs (Decidable (b.1 ≤ a.1))

instance : IsTotal (ℚ × Int) scoreRel := ⟨fun a b => le_total b.1 a.1⟩

instance : IsTrans (ℚ × Int) scoreRel := ⟨fun _ _ _ h₁ h₂ => le_trans h₂ h₁⟩

/-- `IndexFlatIP.search` over the stored vectors: score every stored vector
by inner product with the query, sort by non-increasing score, keep the first
`k`, and pad to exactly `k` entries with label `-1` and the lowest float
score. -/
def faissIndexSearch (stored : List (List ℚ)) (q : List ℚ) (k : Nat) :
    List (ℚ × Int) :=
  let scored := stored.enum.map (fun p => (dot q p.2, (p.1 : Int)))
  let top := (List.insertionSort scoreRel scored).take k
  top ++ List.replicate (k - top.length) (faissLowest, (-1 : Int))

/-- Python list subscription with negative-index wrap-around. -/
def pyGet {α : Type} (l : List α) (i : Int) : Option α :=
  if 0 ≤ i then l[i.toNat]?
  else if 0 ≤ (l.length : Int) + i then l[((l.length : Int) + i).toNat]?
  else none

/-- `search` (keyword_rag.py lines 153-179): empty guard, embed the query,
FAISS search, then keep every hit whose label passes `idx < len(keyword_data)`
— Python list subscription resolves a label of `-1` to the last record. -/
def KeywordVectorStore.search (st : KeywordVectorStore)
    (embed : String → List ℚ) (query : String) (k : Nat) :
    List (KeywordData × ℚ) :=
  match st.index with
  | none => []
  | some vecs =>
    if st.keyword_data.length = 0 then []
    else
      let qv := embed query
      let hits := faissIndexSearch vecs qv k
      hits.filterMap (fun p =>
        if p.2 < (st.keyword_data.length : Int) then
          (pyGet st.keyword_data p.2).map (fun kd => (kd, p.1))
        else none)

/-- On-disk state: for each path stem, the optional serialized FAISS index
(`path.index`) and the optional pickled record/embedding bundle (`path.pkl`). -/
structure DiskState where
  indexFiles : String → Option (List (List ℚ))
  pklFiles : String → Option (List KeywordData × List (List ℚ))

/-- `save` (keyword_rag.py lines 181-194): write the FAISS index only when it
exists (a `None` index leaves any previous `path.index` artifact in place),
and always write the pickled bundle. -/
def KeywordVectorStore.save (st : KeywordVectorStore) (path : String)
    (fs : DiskState) : DiskState :=
  { indexFiles := fun p =>
      if p = path then
        match st.index with
        | some v => some v
        | none => fs.indexFiles p
      else fs.indexFiles p
    pklFiles := fun p =>
      if p = path then some (st.keyword_data, st.embeddings)
      else fs.pklFiles p }

/-- `load` (keyword_rag.py lines 196-207): each artifact is loaded
independently, only if its file exists. -/
def KeywordVectorStore.load (st : KeywordVectorStore) (path : String)
    (fs : DiskState) : KeywordVectorStore :=
  { index :=
      match fs.indexFiles path with
      | some v => some v
      | none => st.index
    keyword_data :=
      match fs.pklFiles path with
      | some d => d.1
      | none => st.keyword_data
    embeddings :=
      match fs.pklFiles path with
      | some d => d.2
      | none => st.embeddings }

/-- A value of the statistics mapping: a number (pandas means/medians and
counts) or the competition frequency distribution. -/
inductive StatValue where
  | num (q : ℚ)
  | dist (d : List (String × Nat))
  deriving DecidableEq, Repr

/-- `pandas.Series.mean`. -/
def dfMean (l : List ℚ) : ℚ := l.sum / l.length

/-- `pandas.Series.median`: middle element of the sorted values, or the
average of the two middle elements for an even count. -/
def dfMedian (l : List ℚ) : ℚ :=
  let s := l.insertionSort (· ≤ ·)
  if s.length = 0 then 0
  else if s.length % 2 = 1 then s.getD (s.length / 2) 0
  else (s.getD (s.length / 2 - 1) 0 + s.getD (s.length / 2) 0) / 2

/-- Order used by `pandas.Series.value_counts`: non-increasing count. -/
def countRel (a b : String × Nat) : Prop := b.2 ≤ a.2

instance : DecidableRel countRel :=
  fun a b => inferInstanceAs (Decidable (b.2 ≤ a.2))

instance : IsTotal (String × Nat) countRel := ⟨fun a b => le_total b.2 a.2⟩

instance : IsTrans (String × Nat) countRel := ⟨fun _ _ _ h₁ h₂ => le_trans h₂ h₁⟩

/-- `value_counts().to_dict()`: each distinct value (first-occurrence order)
with its frequency, stably sorted by non-increasing frequency. -/
def valueCounts (l : List String) : List (String × Nat) :=
  List.insertionSort countRel (l.dedup.map (fun s => (s, l.count s)))

/-- `get_keyword_stats` (keyword_rag.py lines 340-365), operating on the
vector store's record list.  An empty record list short-circuits to the
single-entry mapping. -/
def get_keyword_stats (st : KeywordVectorStore) : List (String × StatValue) :=
  match st.keyword_data with
  | [] => [("total_keywords", StatValue.num 0)]
  | kds =>
    let vols : List ℚ := kds.map (fun kd => (kd.search_volume : ℚ))
    [("total_keywords", StatValue.num kds.length),
     ("avg_search_volume", StatValue.num (dfMean vols)),
     ("median_search_volume", StatValue.num (dfMedian vols)),
     ("avg_cpc", StatValue.num (dfMean (kds.map (fun kd => kd.cpc_high)))),
     ("competition_distribution",
       StatValue.dist (valueCounts (kds.map (fun kd => kd.competition)))),
     ("high_volume_keywords",
       StatValue.num ((kds.filter (fun kd => kd.search_volume > 10000)).length)),
     ("low_competition_keywords",
       StatValue.num ((kds.filter (fun kd => kd.competition = "LOW")).length))]

/-- The chat-completion request built by `GPTKeywordRAG.query`
(keyword_rag.py lines 324-332). -/
structure ChatRequest where
  model : String
  system_content : String
  user_content : String
  max_tokens : Nat
  temperature : ℚ
  deriving DecidableEq, Repr

/-- The fixed system instruction of `GPTKeywordRAG.query`
(keyword_rag.py lines 305-311). -/
def systemPrompt : String :=
  "You are an expert digital marketing analyst with access to Google Ads keyword data. \n" ++
  "        Use the provided keyword data to answer questions about search volume, competition, costs, and marketing opportunities.\n" ++
  "        \n" ++
  "        Provide specific, data-driven insights based on the keyword metrics. When making recommendations, \n" ++
  "        consider search volume, competition levels, and cost-per-click data.\n" ++
  "        \n" ++
  "        If asked about keywords not in the data, suggest related alternatives from the available data."

/-- One numbered entry of the context block
(`_format_keyword_context`, keyword_rag.py lines 276-281). -/
def contextEntry (i : Nat) (kd : KeywordData) (score : ℚ) : String :=
  toString i ++ ". Keyword: \x27" ++ kd.keyword ++ "\x27\n" ++
  "   - Search Volume: " ++ commaFormat kd.search_volume ++ " monthly searches\n" ++
  "   - Competition: " ++ kd.competition ++ "\n" ++
  "   - CPC Range: $" ++ formatFixed 2 kd.cpc_low ++ " - $" ++
    formatFixed 2 kd.cpc_high ++ "\n" ++
  "   - Relevance Score: " ++ formatFixed 3 score ++ "\n\n"

/-- `_format_keyword_context` (keyword_rag.py lines 269-283). -/
def formatKeywordContext (keyword_results : List (KeywordData × ℚ)) : String :=
  match keyword_results with
  | [] => "No relevant keyword data found."
  | results =>
    "Relevant Keyword Data:\n\n" ++
      String.join (results.enum.map
        (fun p => contextEntry (p.1 + 1) p.2.1 p.2.2))

/-- The user instruction of `GPTKeywordRAG.query`
(keyword_rag.py lines 314-321). -/
def userPrompt (user_query : String) (keyword_context : String)
    (include_recommendations : Bool) : String :=
  "User Query: " ++ user_query ++ "\n\n" ++ keyword_context ++
    "\n\nPlease provide a comprehensive answer based on the keyword data above." ++
    (if include_recommendations then
      "\n\nInclude strategic recommendations for keyword targeting and campaign optimization."
     else "")

/-- The full `chat.completions.create` request value that
`GPTKeywordRAG.query` submits for a given store and question. -/
def queryRequest (embed : String → List ℚ) (st : KeywordVectorStore)
    (user_query : String) (max_keywords : Nat)
    (include_recommendations : Bool) : ChatRequest :=
  { model := "gpt-4"
    system_content := systemPrompt
    user_content :=
      userPrompt user_query
        (formatKeywordContext (st.search embed user_query max_keywords))
        include_recommendations
    max_tokens := 1500
    temperature := 7/10 }

/-- `GPTKeywordRAG.query` (keyword_rag.py lines 285-338): retrieve, build the
prompts, call the completion endpoint (the parameter `completion`, returning
either the message content or the exception text), and on failure return the
fallback error string instead of raising. -/
def ragQuery (embed : String → List ℚ)
    (completion : ChatRequest → Except String String)
    (st : KeywordVectorStore) (user_query : String) (max_keywords : Nat)
    (include_recommendations : Bool) : String :=
  match completion (queryRequest embed st user_query max_keywords
      include_recommendations) with
  | Except.ok content => content
  | Except.error e => "Error generating response: " ++ e

/-- A concrete embedding function used for witnesses: every text maps to the
one-dimensional vector `[1]`. -/
def embed1 : String → List ℚ := fun _ => [1]

/-- A concrete Keyword Record used for witnesses. -/
def sampleRecord : KeywordData :=
  { keyword := "digital marketing"
    search_volume := 1000
    competition := "LOW"
    cpc_high := 5/2
    cpc_low := 1/2
    ad_impression_share := 0
    top_of_page_cpc_high := 5/2
    top_of_page_cpc_low := 1/2
    currency_code := "USD"
    timestamp := 0 }

/-- A concrete one-record store obtained by a single `add_keywords` call. -/
def st1 : KeywordVectorStore := emptyStore.add_keywords embed1 [sampleRecord]

/-- A disk state with no artifacts at any path. -/
def fsEmpty : DiskState :=
  { indexFiles := fun _ => none, pklFiles := fun _ => none }

/-- A disk state holding only the pickled record bundle at path `store`
(the index artifact is absent), as a crash between the two writes of `save`
can leave it. -/
def fs0 : DiskState :=
  { indexFiles := fun _ => none
    pklFiles := fun p => if p = "store" then some ([sampleRecord], []) else none }

/-- A concrete idea row used for witnesses: an upstream bid of 2500000 micros
and a missing monthly-search count. -/
def idea0 : KeywordIdea :=
  { text := "seo services"
    avg_monthly_searches := none
    competition_name := "LOW"
    high_top_of_page_bid_micros := 2500000
    low_top_of_page_bid_micros := 500000 }

/-- A concrete completion function that always fails, used for witnesses. -/
def completionFail : ChatRequest → Except String String :=
  fun _ => Except.error "API down"

/-! ## Helper lemmas -/

/-- A replicated list is pairwise related when the element relates to itself. -/
theorem replicate_pairwise {α : Type} {R : α → α → Prop} {a : α} (h : R a a) :
    ∀ n, (List.replicate n a).Pairwise R
  | 0 => List.Pairwise.nil
  | n + 1 => by
    rw [List.replicate_succ]
    exact List.Pairwise.cons
      (fun b hb => by rw [List.eq_of_mem_replicate hb]; exact h)
      (replicate_pairwise h n)

/-- The payload of an `enumFrom` entry is a member of the underlying list. -/
theorem snd_mem_of_mem_enumFrom {α : Type} :
    ∀ (l : List α) (n : Nat) (p : Nat × α), p ∈ List.enumFrom n l → p.2 ∈ l := by
  intro l
  induction l with
  | nil => intro n p h; cases h
  | cons a t ih =>
    intro n p h
    rw [List.enumFrom_cons] at h
    rcases List.mem_cons.mp h with rfl | h'
    · exact List.mem_cons_self a t
    · exact List.mem_cons_of_mem a (ih _ _ h')

/-- `filterMap` transports pairwise relations along the partial map. -/
theorem pairwise_filterMap_of_pairwise {α β : Type} {R : α → α → Prop}
    {S : β → β → Prop} (g : α → Option β)
    (hg : ∀ a b x y, R a b → g a = some x → g b = some y → S x y) :
    ∀ {l : List α}, l.Pairwise R → (l.filterMap g).Pairwise S := by
  intro l hl
  induction hl with
  | nil => simp
  | @cons a t ha _ iht =>
    rw [List.filterMap_cons]
    cases hga : g a with
    | none => exact iht
    | some x =>
      refine List.Pairwise.cons ?_ iht
      intro y hy
      rcases List.mem_filterMap.mp hy with ⟨b, hb, hgb⟩
      exact hg a b x y (ha b hb) hga hgb

/-- The FAISS search reply always has exactly `k` entries. -/
theorem faissIndexSearch_length (stored : List (List ℚ)) (q : List ℚ) (k : Nat) :
    (faissIndexSearch stored q k).length = k := by
  simp only [faissIndexSearch, List.length_append, List.length_replicate,
    List.length_take]
  omega

/-- Every entry of the FAISS search reply is either a scored stored vector or
the padding entry. -/
theorem faissIndexSearch_mem (stored : List (List ℚ)) (q : List ℚ) (k : Nat)
    (x : ℚ × Int) (hx : x ∈ faissIndexSearch stored q k) :
    (∃ v ∈ stored, x.1 = dot q v) ∨ x = (faissLowest, (-1 : Int)) := by
  simp only [faissIndexSearch] at hx
  rcases List.mem_append.mp hx with h | h
  · left
    have h1 := List.mem_of_mem_take h
    have h2 := (List.mem_insertionSort scoreRel).mp h1
    rcases List.mem_map.mp h2 with ⟨p, hp, rfl⟩
    exact ⟨p.2, snd_mem_of_mem_enumFrom stored 0 p hp, rfl⟩
  · exact Or.inr (List.eq_of_mem_replicate h)

/-- The FAISS search reply is sorted by non-increasing score, provided each
stored vector scores at least the padding sentinel. -/
theorem faissIndexSearch_pairwise (stored : List (List ℚ)) (q : List ℚ) (k : Nat)
    (hb : ∀ v ∈ stored, faissLowest ≤ dot q v) :
    (faissIndexSearch stored q k).Pairwise scoreRel := by
  simp only [faissIndexSearch]
  refine List.pairwise_append.mpr ⟨?_, ?_, ?_⟩
  · exact (List.sorted_insertionSort scoreRel _).sublist (List.take_sublist _ _)
  · exact replicate_pairwise
      (show scoreRel (faissLowest, (-1 : Int)) (faissLowest, (-1 : Int)) from
        le_refl faissLowest) _
  · intro a ha b hbmem
    rw [List.eq_of_mem_replicate hbmem]
    have h1 := List.mem_of_mem_take ha
    have h2 := (List.mem_insertionSort scoreRel).mp h1
    rcases List.mem_map.mp h2 with ⟨p, hp, rfl⟩
    exact hb p.2 (snd_mem_of_mem_enumFrom stored 0 p hp)

/-- A hit kept by the `search` filter carries the score of the FAISS entry it
came from. -/
theorem searchHit_snd (kds : List KeywordData) (p : ℚ × Int) (x : KeywordData × ℚ)
    (h : (if p.2 < (kds.length : Int) then
        (pyGet kds p.2).map (fun kd => (kd, p.1)) else none) = some x) :
    x.2 = p.1 := by
  split at h
  · rcases Option.map_eq_some'.mp h with ⟨kd, _, rfl⟩
    rfl
  · exact absurd h (by simp)

/-! ## Claim theorems -/

/-- One `add_keywords` step preserves the record/vector pairing invariant. -/
theorem add_preserves_pairing (embed : String → List ℚ) (s : KeywordVectorStore)
    (b : List KeywordData)
    (h1 : storedVectors s = s.keyword_data.map (fun kd => embed (keywordText kd)))
    (h2 : s.embeddings = s.keyword_data.map (fun kd => embed (keywordText kd))) :
    storedVectors (s.add_keywords embed b) =
        (s.add_keywords embed b).keyword_data.map (fun kd => embed (keywordText kd)) ∧
      (s.add_keywords embed b).embeddings =
        (s.add_keywords embed b).keyword_data.map (fun kd => embed (keywordText kd)) := by
  simp only [storedVectors] at h1
  constructor <;>
    simp [KeywordVectorStore.add_keywords, storedVectors, List.map_map,
      Function.comp, h1, h2]

/-- Folding any batch sequence through `add_keywords` preserves the pairing
invariant. -/
theorem foldl_add_pairing (embed : String → List ℚ) :
    ∀ (batches : List (List KeywordData)) (s : KeywordVectorStore),
      storedVectors s = s.keyword_data.map (fun kd => embed (keywordText kd)) →
      s.embeddings = s.keyword_data.map (fun kd => embed (keywordText kd)) →
      storedVectors (batches.foldl (fun acc b => acc.add_keywords embed b) s) =
          (batches.foldl (fun acc b => acc.add_keywords embed b) s).keyword_data.map
            (fun kd => embed (keywordText kd)) ∧
        (batches.foldl (fun acc b => acc.add_keywords embed b) s).embeddings =
          (batches.foldl (fun acc b => acc.add_keywords embed b) s).keyword_data.map
            (fun kd => embed (keywordText kd)) := by
  intro batches
  induction batches with
  | nil => intro s h1 h2; exact ⟨h1, h2⟩
  | cons b rest ih =>
    intro s h1 h2
    simp only [List.foldl_cons]
    obtain ⟨g1, g2⟩ := add_preserves_pairing embed s b h1 h2
    exact ih _ g1 g2

/-- C1: for every sequence of Keyword Records added to an index (starting
from empty, across any number of `add_keywords` calls — the batch sequence is
universally quantified, so every intermediate observation point is an
instance), the FAISS index holds exactly one vector per stored record, vector
`i` being the embedding of record `i`'s canonical text, the mirror
`embeddings` list agrees, and hence the record count equals the vector
count. -/
theorem add_keywords_record_vector_pairing (embed : String → List ℚ)
    (batches : List (List KeywordData)) :
    storedVectors (batches.foldl (fun acc b => acc.add_keywords embed b) emptyStore) =
        (batches.foldl (fun acc b => acc.add_keywords embed b) emptyStore).keyword_data.map
          (fun kd => embed (keywordText kd)) ∧
      (batches.foldl (fun acc b => acc.add_keywords embed b) emptyStore).embeddings =
        (batches.foldl (fun acc b => acc.add_keywords embed b) emptyStore).keyword_data.map
          (fun kd => embed (keywordText kd)) ∧
      (storedVectors (batches.foldl (fun acc b => acc.add_keywords embed b) emptyStore)).length =
        (batches.foldl (fun acc b => acc.add_keywords embed b) emptyStore).keyword_data.length := by
  obtain ⟨g1, g2⟩ := foldl_add_pairing embed batches emptyStore rfl rfl
  exact ⟨g1, g2, by rw [g1, List.length_map]⟩

/-- C2: for every index state, query and bound `k`, `search` returns at most
`k` (record, score) pairs, sorted by non-increasing similarity score.  The
hypothesis bounds every stored vector's inner product with the query vector
from below by the padding sentinel, which is trivially true of the float
scores the model abstracts (the sentinel is the lowest float). -/
theorem search_length_le_and_sorted (embed : String → List ℚ)
    (st : KeywordVectorStore) (query : String) (k : Nat)
    (hb : ∀ v ∈ storedVectors st, faissLowest ≤ dot (embed query) v) :
    (st.search embed query k).length ≤ k ∧
      List.Sorted (fun a b : KeywordData × ℚ => b.2 ≤ a.2)
        (st.search embed query k) := by
  cases hidx : st.index with
  | none => simp [KeywordVectorStore.search, hidx]
  | some vecs =>
    by_cases hkd : st.keyword_data.length = 0
    · simp [KeywordVectorStore.search, hidx, hkd]
    · have hsearch : st.search embed query k =
          (faissIndexSearch vecs (embed query) k).filterMap (fun p =>
            if p.2 < (st.keyword_data.length : Int) then
              (pyGet st.keyword_data p.2).map (fun kd => (kd, p.1))
            else none) := by
        simp [KeywordVectorStore.search, hidx, hkd]
      have hvecs : ∀ v ∈ vecs, faissLowest ≤ dot (embed query) v := by
        intro v hv
        apply hb
        simp [storedVectors, hidx]
        exact hv
      rw [hsearch]
      constructor
      · calc ((faissIndexSearch vecs (embed query) k).filterMap _).length
            ≤ (faissIndexSearch vecs (embed query) k).length :=
              List.length_filterMap_le _ _
          _ = k := faissIndexSearch_length vecs (embed query) k
      · refine pairwise_filterMap_of_pairwise _ ?_
          (faissIndexSearch_pairwise vecs (embed query) k hvecs)
        intro a b x y hr hga hgb
        have hx := searchHit_snd st.keyword_data a x hga
        have hy := searchHit_snd st.keyword_data b y hgb
        rw [hx, hy]
        exact hr

/-- C2 witness: the one-record store with the constant embedding satisfies
the score lower bound, and the searched results are within bounds and
sorted. -/
theorem search_length_le_and_sorted_witness :
    (∀ v ∈ storedVectors st1, faissLowest ≤ dot (embed1 "seo") v) ∧
      ((st1.search embed1 "seo" 1).length ≤ 1 ∧
        List.Sorted (fun a b : KeywordData × ℚ => b.2 ≤ a.2)
          (st1.search embed1 "seo" 1)) := by
  have hb : ∀ v ∈ storedVectors st1, faissLowest ≤ dot (embed1 "seo") v := by
    intro v hv
    simp [storedVectors, st1, emptyStore, KeywordVectorStore.add_keywords, embed1] at hv
    subst hv
    norm_num [dot, embed1, faissLowest]
  exact ⟨hb, search_length_le_and_sorted embed1 st1 "seo" 1 hb⟩

/-- C3: searching a freshly constructed store (nothing added or loaded, so
the FAISS index is still `None`) returns the empty list for every query and
every `k`, and raises nothing (the model is a total function). -/
theorem search_empty_store (embed : String → List ℚ) (query : String) (k : Nat) :
    emptyStore.search embed query k = [] := rfl

/-- C4: saving a populated store (FAISS index present, record list non-empty)
and loading the two artifacts into a fresh store reproduces the store
exactly, so every search on the reloaded store returns the same records in
the same order with exactly the same scores. -/
theorem save_then_load_search (embed : String → List ℚ)
    (st : KeywordVectorStore) (path : String) (fs : DiskState)
    (query : String) (k : Nat)
    (hpop : st.index.isSome = true) (hne : st.keyword_data ≠ []) :
    (emptyStore.load path (st.save path fs)).search embed query k =
      st.search embed query k := by
  obtain ⟨vs, hvs⟩ := Option.isSome_iff_exists.mp hpop
  have hself : emptyStore.load path (st.save path fs) = st := by
    cases st with
    | mk idx kd emb =>
      simp only at hvs
      subst hvs
      simp [KeywordVectorStore.load, KeywordVectorStore.save, emptyStore]
  rw [hself]

/-- C4 witness: a concrete populated store round-trips through `save` and
`load` with identical search output. -/
theorem save_then_load_search_witness :
    st1.index.isSome = true ∧ st1.keyword_data ≠ [] ∧
      (emptyStore.load "p" (st1.save "p" fsEmpty)).search embed1 "q" 3 =
        st1.search embed1 "q" 3 :=
  ⟨rfl, by decide, save_then_load_search embed1 st1 "p" fsEmpty "q" 3 rfl (by decide)⟩

/-- C5 counterexample: at a path whose index artifact is absent but whose
pickled record bundle is present (as a crash between the two `save` writes
can leave it), `load` is not a no-op: it populates the record list of a
fresh store, so the store is not left empty. -/
theorem load_missing_index_artifact_not_noop :
    fs0.indexFiles "store" = none ∧
      (emptyStore.load "store" fs0).keyword_data ≠ [] :=
  ⟨rfl, by decide⟩

/-- C5 amended: `load` handles the two artifacts independently, loading each
one that is present; when BOTH artifacts are absent it is a no-op (in
particular a fresh store stays empty) and raises no error, and `load` is
always idempotent. -/
theorem load_noop_when_both_absent_and_idempotent (st : KeywordVectorStore)
    (path : String) (fs : DiskState) :
    (fs.indexFiles path = none → fs.pklFiles path = none →
        st.load path fs = st) ∧
      (st.load path fs).load path fs = st.load path fs := by
  constructor
  · intro h1 h2
    simp [KeywordVectorStore.load, h1, h2]
  · cases hidx : fs.indexFiles path <;> cases hpkl : fs.pklFiles path <;>
      simp [KeywordVectorStore.load, hidx, hpkl]

/-- C5 amended witness: with no artifacts on disk, loading a fresh store
leaves it empty. -/
theorem load_noop_witness :
    fsEmpty.indexFiles "p" = none ∧ fsEmpty.pklFiles "p" = none ∧
      emptyStore.load "p" fsEmpty = emptyStore :=
  ⟨rfl, rfl, (load_noop_when_both_absent_and_idempotent emptyStore "p" fsEmpty).1 rfl rfl⟩

/-- C6: each micros-denominated bid field becomes the rational obtained by
dividing by 1,000,000 (the `else 0` branch coincides with `0 / 1000000`);
2500000 micros yields exactly 2.50; a missing monthly-search count defaults
to 0 and the impression share is always 0. -/
theorem micros_conversion (idea : KeywordIdea) (now : Nat) :
    (mkKeywordData idea now).cpc_high =
        (idea.high_top_of_page_bid_micros : ℚ) / 1000000 ∧
      (mkKeywordData idea now).cpc_low =
        (idea.low_top_of_page_bid_micros : ℚ) / 1000000 ∧
      (mkKeywordData idea now).top_of_page_cpc_high =
        (idea.high_top_of_page_bid_micros : ℚ) / 1000000 ∧
      (mkKeywordData idea now).top_of_page_cpc_low =
        (idea.low_top_of_page_bid_micros : ℚ) / 1000000 ∧
      (idea.high_top_of_page_bid_micros = 2500000 →
        (mkKeywordData idea now).cpc_high = 5/2) ∧
      (idea.avg_monthly_searches = none →
        (mkKeywordData idea now).search_volume = 0) ∧
      (mkKeywordData idea now).ad_impression_share = 0 := by
  refine ⟨?_, ?_, ?_, ?_, ?_, ?_, rfl⟩
  · by_cases h : idea.high_top_of_page_bid_micros = 0 <;> simp [mkKeywordData, h]
  · by_cases h : idea.low_top_of_page_bid_micros = 0 <;> simp [mkKeywordData, h]
  · by_cases h : idea.high_top_of_page_bid_micros = 0 <;> simp [mkKeywordData, h]
  · by_cases h : idea.low_top_of_page_bid_micros = 0 <;> simp [mkKeywordData, h]
  · intro h
    simp [mkKeywordData, h]
    norm_num
  · intro h
    simp [mkKeywordData, h]

/-- C6 witness: the concrete idea row with a 2500000-micros bid and a missing
search count maps to a CPC of exactly 2.50 and a search volume of 0. -/
theorem micros_conversion_witness :
    idea0.high_top_of_page_bid_micros = 2500000 ∧
      idea0.avg_monthly_searches = none ∧
      (mkKeywordData idea0 0).cpc_high = 5/2 ∧
      (mkKeywordData idea0 0).search_volume = 0 :=
  ⟨rfl, rfl, (micros_conversion idea0 0).2.2.2.2.1 rfl,
    (micros_conversion idea0 0).2.2.2.2.2.1 rfl⟩

/-- C7: calling `get_keyword_ideas` on a fresh extractor (no
`set_customer_id` call has bound an account identifier) fails with the
spec's ConfigurationError for every upstream service, seed list, location
filter and language, and the upstream call counter stays at 0. -/
theorem fetch_before_customer_id
    (api : GenerateKeywordIdeasRequest → Except String (List KeywordIdea))
    (keywords : List String) (location_ids : Option (List String))
    (language_id : String) (now : Nat) :
    freshExtractor.get_keyword_ideas api keywords location_ids language_id now =
      (Except.error (KwError.configurationError
        "Customer ID must be set before making API calls"), 0) := rfl

/-- C8: when the completion call fails, `query` returns the fallback string
describing the error — it raises nothing (the model is a total function
returning a string) and the returned text starts with the error indicator
`Error`. -/
theorem query_completion_failure (embed : String → List ℚ)
    (completion : ChatRequest → Except String String)
    (st : KeywordVectorStore) (user_query : String) (max_keywords : Nat)
    (include_recommendations : Bool) (e : String)
    (hfail : completion (queryRequest embed st user_query max_keywords
        include_recommendations) = Except.error e) :
    ragQuery embed completion st user_query max_keywords include_recommendations =
        "Error generating response: " ++ e ∧
      ("Error".data.isPrefixOf (ragQuery embed completion st user_query
          max_keywords include_recommendations).data) = true := by
  have h : ragQuery embed completion st user_query max_keywords
      include_recommendations = "Error generating response: " ++ e := by
    simp [ragQuery, hfail]
  exact ⟨h, by rw [h]; rfl⟩

/-- C8 witness: a concrete failing completion call yields the fallback error
string on the concrete one-record store. -/
theorem query_completion_failure_witness :
    completionFail (queryRequest embed1 st1 "question" 10 true) =
        Except.error "API down" ∧
      ragQuery embed1 completionFail st1 "question" 10 true =
        "Error generating response: API down" :=
  ⟨rfl, (query_completion_failure embed1 completionFail st1 "question" 10 true
    "API down" rfl).1⟩

/-- C9: on an empty record set the statistics mapping is exactly the single
entry total_keywords = 0 — no other key — and the model is a total function
so nothing is raised. -/
theorem stats_empty_record_set (st : KeywordVectorStore)
    (h : st.keyword_data = []) :
    get_keyword_stats st = [("total_keywords", StatValue.num 0)] := by
  simp [get_keyword_stats, h]

/-- C9 witness: the fresh store has an empty record set and its statistics
are the singleton mapping. -/
theorem stats_empty_record_set_witness :
    emptyStore.keyword_data = [] ∧
      get_keyword_stats emptyStore = [("total_keywords", StatValue.num 0)] :=
  ⟨rfl, stats_empty_record_set emptyStore rfl⟩

/-- C10: the padding guard is ineffective — on a one-record store a search
with k = 2 keeps the FAISS padding entry, because its label -1 passes the
`idx < len(keyword_data)` test and Python list subscription resolves -1 to
the LAST record: the result has length 2 (one per requested slot, not one
per stored record) and duplicates the sole record, pairing it with the
sentinel score. -/
theorem search_padding_duplicates_last_record :
    st1.keyword_data.length = 1 ∧
      st1.search embed1 "related keywords" 2 =
        [(sampleRecord, 1), (sampleRecord, faissLowest)] ∧
      (st1.search embed1 "related keywords" 2).length = 2 := by
  have hst : st1 = ⟨some [[1]], [sampleRecord], [[1]]⟩ := by
    simp [st1, emptyStore, KeywordVectorStore.add_keywords, embed1]
  have hsearch : st1.search embed1 "related keywords" 2 =
      [(sampleRecord, 1), (sampleRecord, faissLowest)] := by
    rw [hst]
    norm_num [KeywordVectorStore.search, embed1, faissIndexSearch, dot,
      List.enum, List.enumFrom, List.insertionSort, List.orderedInsert, pyGet,
      List.filterMap_cons]
  exact ⟨by rw [hst]; rfl, hsearch, by rw [hsearch]; rfl⟩
